import Mathlib

/-!
Verification of the array-interface layer of the h5 library
(`src/c++/h5/array_interface.cpp`), namespace `h5::array_interface`.

The pure stride-decomposition routine `get_L_tot_and_strides_h5` is embedded
directly.  The header `array_interface.hpp` defining the vector alias `v_t`
is not part of the provided sources; the C++ routine computes in `long`, so
strides and sizes are modelled as unbounded integers (`Int`).  All divisions
performed by the routine are exact (the divisor is a gcd of the dividends),
so the C++ truncated division agrees with Lean's integer division wherever
the routine is defined; the one genuine failure mode of the C++ code —
an integer division by zero, which is undefined behaviour — is modelled by
returning `none`.

The entry points `make_mem_dspace`, `write`, `write_attribute`, `read` and
`read_attribute` call into the external HDF5 library.  That collaborator is
modelled abstractly: handles become explicit data (`dataspace`, `Dataset`,
`group`, …), and the success or failure of each external primitive is an
input (`H5Lib`), so the control flow of the translation layer itself is what
is being verified.
-/

namespace h5

/-! ## Stride decomposition: `get_L_tot_and_strides_h5` -/

/-- The inner gcd accumulation of `get_L_tot_and_strides_h5`:
`long L = strides_h5[u]; for (int v = u - 1; v >= 0; --v) L = std::gcd(L, strides_h5[v]);`.
`foldGcd s L n` runs the folding loop for `v = n-1` down to `0` with
accumulator `L`. -/
def foldGcd (s : List Int) : Int → Nat → Int
  | L, 0 => L
  | L, n + 1 => foldGcd s (Int.gcd L (s.getD n 0)) n

/-- The division loop of `get_L_tot_and_strides_h5`:
`for (int v = u; v >= 0; --v) strides_h5[v] /= L;` — every entry of index
`≤ u` is divided by `L`. -/
def divideBelow (L : Int) : Nat → List Int → List Int
  | _, [] => []
  | 0, x :: xs => x / L :: xs
  | u + 1, x :: xs => x / L :: divideBelow L u xs

/-- The outer loop of `get_L_tot_and_strides_h5`, for `u = rank - 2` down to
`0`; `stepLoop k (Ltot, s)` runs the `k` remaining iterations, the current
one having `u = k - 1`.  A zero gcd `L` makes the C++ division loop divide
by zero (undefined behaviour), modelled as `none`. -/
def stepLoop : Nat → List Int × List Int → Option (List Int × List Int)
  | 0, st => some st
  | k + 1, (Ltot, s) =>
    let L := foldGcd s (s.getD k 0) k
    if L = 0 then none
    else stepLoop k (Ltot.set (k + 1) L, divideBelow L k s)

/-- `get_L_tot_and_strides_h5` from `array_interface.cpp` (lines 47–66).
The input stride vector and its rank are passed as a single list
(`rank = stri.length`); the result is the pair `(Ltot, strides_h5)`. -/
def get_L_tot_and_strides_h5 (stri : List Int) (total_size : Int) :
    Option (List Int × List Int) :=
  let rank := stri.length
  if rank = 0 then some ([], [])
  else if total_size = 0 then some (List.replicate rank 0, List.replicate rank 1)
  else stepLoop (rank - 1) ((List.replicate rank 0).set 0 total_size, stri)

/-! ### Reference definition from the specification (for claim C1) -/

/-- Mathematical gcd of a list of integers (a natural number). -/
def listGcd : List Int → Nat
  | [] => 0
  | x :: xs => Int.gcd x (listGcd xs)

/-- The gcd named by the spec: "`L` as the greatest common divisor of
`strides_h5[u], strides_h5[u-1], …, strides_h5[0]`".  Following the spec's
tie-break note ("GCD of a stride with itself for `u` at the innermost
non-trivial dimension is itself"), the gcd of the single entry at `u = 0`
is that entry itself. -/
def prefixGcd (s : List Int) : Nat → Int
  | 0 => s.getD 0 0
  | n + 1 => listGcd (s.take (n + 2))

/-- The division named by the spec: "divide every `strides_h5[v]` for
`v ≤ u` by `L`", phrased on the length-`(u+1)` front segment. -/
def specDivide (L : Int) (u : Nat) (s : List Int) : List Int :=
  (s.take (u + 1)).map (fun x => x / L) ++ s.drop (u + 1)

/-- Reference form of the outer loop, from the spec's words. -/
def specStep : Nat → List Int × List Int → Option (List Int × List Int)
  | 0, st => some st
  | k + 1, (Ltot, s) =>
    let L := prefixGcd s k
    if L = 0 then none
    else specStep k (Ltot.set (k + 1) L, specDivide L k s)

/-- Reference definition of the decomposition, assembled from the spec's
sentences: rank 0 ⇒ empty outputs; `total_size = 0` ⇒ zeros and ones;
otherwise `L_tot[0] = total_size` and the gcd/divide loop for
`u = rank - 2` down to `0`. -/
def get_L_tot_and_strides_h5_spec (stri : List Int) (total_size : Int) :
    Option (List Int × List Int) :=
  let rank := stri.length
  if rank = 0 then some ([], [])
  else if total_size = 0 then some (List.replicate rank 0, List.replicate rank 1)
  else specStep (rank - 1) ((List.replicate rank 0).set 0 total_size, stri)

/-! ### Addressing (for claim C2) -/

/-- The stride in dimension `d` that the pair `(L_tot, strides_h5)` induces
on linear memory: a hyperslab stride of `strides_h5[d]` in dimension `d` of
a row-major array with extents `L_tot` advances by
`strides_h5[d] · L_tot[d+1] · … · L_tot[rank-1]` linear elements. -/
def expandStride (Ltot s : List Int) (d : Nat) : Int :=
  s.getD d 0 * ((Ltot.drop (d + 1)).prod)

/-- The stride in dimension `d` of the original raw stride vector. -/
def origStride (stri : List Int) (d : Nat) : Int :=
  stri.getD d 0

/-- Linear offset visited at multi-index `idx` under per-dimension strides
`str`, starting from `offset`: `offset + Σ_d idx[d] · str d`. -/
def addr (offset : Int) (str : Nat → Int) (idx : List Int) : Int :=
  offset + ((List.range idx.length).map (fun d => idx.getD d 0 * str d)).sum

/-! ## Data model for the HDF5-facing entry points

The HDF5 element types, dataspaces, datasets, attributes and groups are
handles owned by the external library; they are modelled here as explicit
data, following the collaborator interface the spec describes.  Whether an
individual external primitive call succeeds is an input (`H5Lib`). -/

/-- Element-type class (`H5Tget_class`): the broad kind of a type. -/
inductive TClass
  | integer
  | float
  | strTy
  | other (n : Nat)
deriving DecidableEq, Repr

/-- An HDF5 datatype handle: its class together with a tag distinguishing
exact types within a class (e.g. a bit width). -/
structure HType where
  cls : TClass
  sub : Nat
deriving DecidableEq, Repr

/-- Modelled from the spec: `hdf5_type_equal` (declared in the repository
headers, not under `src/`) — exact type equality, finer than class
equality. -/
def hdf5_type_equal (a b : HType) : Bool := a = b

/-- A hyperslab selection request as handed to `H5Sselect_hyperslab`:
the `block` argument is `none` when the C++ code passes `nullptr`. -/
structure SelArgs where
  offset : List Nat
  stride : List Nat
  count : List Nat
  block : Option (List Nat)
deriving DecidableEq, Repr

/-- A dataspace handle: scalar (`H5Screate(H5S_SCALAR)`) or simple with
extents `dims` (`H5Screate_simple`) carrying an optional hyperslab
selection. -/
inductive dataspace
  | scalar
  | simple (dims : List Nat) (sel : Option SelArgs)
deriving DecidableEq, Repr

/-- `H5Sget_simple_extent_npoints`: the number of elements of the extent
(the product of the dimensions; 1 for a scalar dataspace).  It does not
count the selection. -/
def simple_extent_npoints : dataspace → Nat
  | .scalar => 1
  | .simple dims _ => dims.prod

/-- The hyperslab of an array view: offset / stride / count / block
vectors; an empty `block` means unit blocks. -/
structure hyperslab where
  offset : List Nat
  stride : List Nat
  count : List Nat
  block : List Nat
deriving DecidableEq, Repr

/-- Modelled from the spec: the rank of a hyperslab is the common length of
its vectors (the header defining `hyperslab::rank` is not under `src/`). -/
def hyperslab.rank (s : hyperslab) : Nat := s.count.length

/-- The view of one in-memory array to transfer: element type, buffer
address, hyperslab, enclosing extents `L_tot`, complex flag. -/
structure h5_array_view where
  ty : HType
  start : Nat
  slab : hyperslab
  L_tot : List Nat
  is_complex : Bool
deriving DecidableEq, Repr

/-- Modelled from the spec: `h5_array_view::rank` delegates to the slab. -/
def h5_array_view.rank (v : h5_array_view) : Nat := v.slab.rank

/-- Value stored in an attribute: a raw transfer from a buffer address
(`none` until `H5Awrite` has run) or a string. -/
inductive AttrVal
  | raw (a : Option Nat)
  | str (s : String)
deriving DecidableEq, Repr

/-- One stored attribute: its type, dataspace extents (`[]` = scalar) and
value. -/
structure AttrEntry where
  ty : HType
  dims : List Nat
  val : AttrVal
deriving DecidableEq, Repr

/-- The HDF5 type of the complex-marker string attribute. -/
def strHType : HType := { cls := TClass.strTy, sub := 0 }

/-- Modelled from the spec: `h5_write_attribute(ds, name, value)` for a
string value (defined in `h5/stl/string.hpp`, not under `src/`) — records
a scalar string attribute of the given name and value on the object. -/
def h5_write_attribute_str (attrs : List (String × AttrEntry)) (name val : String) :
    List (String × AttrEntry) :=
  attrs ++ [(name, { ty := strHType, dims := [], val := AttrVal.str val })]

/-- Dataset creation properties: default, or chunked with a deflate
filter. -/
inductive CreationProps
  | dflt
  | chunked (chunk_dims : List Nat) (deflate_level : Nat)
deriving DecidableEq, Repr

/-- A stored dataset: element type, file-dataspace extents, creation
properties, transferred buffer address (if any), attributes. -/
structure Dataset where
  ty : HType
  dims : List Nat
  props : CreationProps
  payload : Option Nat
  attrs : List (String × AttrEntry)
deriving DecidableEq, Repr

/-- A group: its name and the datasets it contains. -/
structure group where
  name : String
  datasets : List (String × Dataset)
deriving DecidableEq, Repr

/-- Modelled from the spec: `group::unlink` removes the entry of the given
name (the group wrapper class is not under `src/`). -/
def group.unlink (g : group) (n : String) : group :=
  { g with datasets := g.datasets.filter (fun p => p.1 != n) }

/-- Modelled from the spec: `group::open_dataset` looks a dataset up by
name. -/
def group.find_dataset (g : group) (n : String) : Option Dataset :=
  g.datasets.lookup n

/-- Adding a freshly created dataset to a group (`H5Dcreate2`). -/
def group.add_dataset (g : group) (n : String) (d : Dataset) : group :=
  { g with datasets := g.datasets ++ [(n, d)] }

/-- Updating the dataset of a given name in place. -/
def group.map_dataset (g : group) (n : String) (f : Dataset → Dataset) : group :=
  { g with datasets := g.datasets.map (fun p => if p.1 == n then (p.1, f p.2) else p) }

/-- A generic attributable object (`object obj` in the C++ code). -/
structure H5Object where
  attrs : List (String × AttrEntry)
deriving DecidableEq, Repr

/-- Success/failure behaviour of the external library's primitives for the
duration of one call, together with `get_name_of_h5_type` (a repository
helper not under `src/`, modelled from the spec as a type-naming
function). -/
structure H5Lib where
  screate_ok : Bool
  select_ok : Bool
  dcreate_ok : Bool
  dwrite_ok : Bool
  dread_ok : Bool
  acreate_ok : Bool
  awrite_ok : Bool
  aread_ok : Bool
  tequal_fails : Bool
  type_name : HType → String

/-! ## The five entry points -/

/-- `make_mem_dspace` (`array_interface.cpp` lines 31–43): scalar dataspace
for rank 0; otherwise a simple dataspace with extents `L_tot` and a
hyperslab selection from the view's slab, the block argument being null
when the view's block vector is empty. -/
def make_mem_dspace (lib : H5Lib) (v : h5_array_view) : Except String dataspace :=
  if v.rank = 0 then Except.ok dataspace.scalar
  else if ¬ lib.screate_ok then Except.error "Cannot create the dataset"
  else if ¬ lib.select_ok then Except.error "Cannot set hyperslab"
  else Except.ok (dataspace.simple v.L_tot (some
    { offset := v.slab.offset, stride := v.slab.stride, count := v.slab.count,
      block := if v.slab.block = [] then none else some v.slab.block }))

/-- Outcome of `write`: the group afterwards, whether `H5Dwrite` ran, and
the thrown error if any. -/
structure WriteOut where
  g : group
  transferred : Bool
  error : Option String
deriving DecidableEq, Repr

/-- `write` (`array_interface.cpp` lines 72–103): unlink, build creation
properties, create the dataset shaped by the slab counts, build the memory
dataspace, transfer unless the extent is empty, then record the complex
marker. -/
def write (lib : H5Lib) (g0 : group) (name : String) (v : h5_array_view)
    (compress : Bool) : WriteOut :=
  let g := g0.unlink name
  let cparms := if compress = true ∧ v.rank ≠ 0 then
      CreationProps.chunked (v.slab.count.map (fun c => max c 1)) 1
    else CreationProps.dflt
  if ¬ lib.dcreate_ok then
    { g := g, transferred := false,
      error := some ("Cannot create the dataset " ++ name ++ " in the group " ++ g0.name) }
  else
    let g1 := g.add_dataset name
      { ty := v.ty, dims := v.slab.count, props := cparms, payload := none, attrs := [] }
    match make_mem_dspace lib v with
    | Except.error e => { g := g1, transferred := false, error := some e }
    | Except.ok mem_dspace =>
      if 0 < simple_extent_npoints mem_dspace then
        if ¬ lib.dwrite_ok then
          { g := g1, transferred := false,
            error := some ("Error writing the scalar dataset " ++ name ++ " in the group" ++ g0.name) }
        else
          let g2 := g1.map_dataset name (fun d => { d with payload := some v.start })
          if v.is_complex then
            { g := g2.map_dataset name
                (fun d => { d with attrs := h5_write_attribute_str d.attrs "__complex__" "1" }),
              transferred := true, error := none }
          else { g := g2, transferred := true, error := none }
      else
        if v.is_complex then
          { g := g1.map_dataset name
              (fun d => { d with attrs := h5_write_attribute_str d.attrs "__complex__" "1" }),
            transferred := false, error := none }
        else { g := g1, transferred := false, error := none }

/-- Outcome of `write_attribute`: the object afterwards and the thrown
error if any. -/
structure WriteAttrOut where
  obj : H5Object
  error : Option String
deriving DecidableEq, Repr

/-- `write_attribute` (`array_interface.cpp` lines 107–118): refuse to
overwrite an existing attribute, else build the memory dataspace, create
the attribute, transfer the data. -/
def write_attribute (lib : H5Lib) (obj : H5Object) (name : String)
    (v : h5_array_view) : WriteAttrOut :=
  if (obj.attrs.lookup name).isSome then
    { obj := obj,
      error := some ("The attribute " ++ name ++ " is already present. Can not overwrite") }
  else
    match make_mem_dspace lib v with
    | Except.error e => { obj := obj, error := some e }
    | Except.ok mem_dspace =>
      if ¬ lib.acreate_ok then
        { obj := obj, error := some ("Cannot create the attribute " ++ name) }
      else
        let dims := match mem_dspace with
          | dataspace.scalar => []
          | dataspace.simple ds _ => ds
        let obj1 : H5Object :=
          { attrs := obj.attrs ++ [(name, { ty := v.ty, dims := dims, val := AttrVal.raw none })] }
        if ¬ lib.awrite_ok then
          { obj := obj1, error := some ("Cannot write the attribute " ++ name) }
        else
          { obj := { attrs := obj1.attrs.map (fun p =>
              if p.1 == name then (p.1, { p.2 with val := AttrVal.raw (some v.start) }) else p) },
            error := none }

/-- Metadata read back from a stored dataset before a `read`. -/
structure h5_lengths_type where
  lengths : List Nat
  ty : HType
  has_complex_attribute : Bool
deriving DecidableEq, Repr

/-- Modelled from the spec: `h5_lengths_type::rank` is the length of the
extents vector (the header is not under `src/`). -/
def h5_lengths_type.rank (lt : h5_lengths_type) : Nat := lt.lengths.length

/-- Outcome of `read`: warnings printed, whether `H5Dread` ran, and the
thrown error if any. -/
structure ReadOut where
  warnings : List String
  transferred : Bool
  error : Option String
deriving DecidableEq, Repr

/-- `read` (`array_interface.cpp` lines 143–168): open the dataset, check
type class, warn on inexact type match, check rank, check lengths against
the slab counts, build the memory dataspace, and transfer unless the file
dataspace extent is empty. -/
def read (lib : H5Lib) (g : group) (name : String) (v : h5_array_view)
    (lt : h5_lengths_type) : ReadOut :=
  match g.find_dataset name with
  | none =>
    { warnings := [], transferred := false,
      error := some ("Cannot open the dataset " ++ name) }
  | some ds =>
    let file_dspace := dataspace.simple ds.dims none
    if v.ty.cls ≠ lt.ty.cls then
      { warnings := [], transferred := false,
        error := some ("Incompatible types in h5_read. Expecting a " ++ lib.type_name v.ty
          ++ " while the array stored in the hdf5 file has type " ++ lib.type_name lt.ty) }
    else
      let warns := if ¬ hdf5_type_equal v.ty lt.ty then
          ["WARNING: Mismatching types in h5_read. Expecting a " ++ lib.type_name v.ty
            ++ " while the array stored in the hdf5 file has type " ++ lib.type_name lt.ty ++ "\n"]
        else []
      if lt.rank ≠ v.rank then
        { warnings := warns, transferred := false,
          error := some ("h5 read. Rank mismatch : expecting in file a rank " ++ toString v.rank
            ++ " while the array stored in the hdf5 file has rank " ++ toString lt.rank) }
      else if lt.lengths ≠ v.slab.count then
        { warnings := warns, transferred := false, error := some "h5 read. Lengths mismatch" }
      else
        match make_mem_dspace lib v with
        | Except.error e => { warnings := warns, transferred := false, error := some e }
        | Except.ok _ =>
          if 0 < simple_extent_npoints file_dspace then
            if ¬ lib.dread_ok then
              { warnings := warns, transferred := false,
                error := some ("Error reading the scalar dataset " ++ name
                  ++ " in the group " ++ g.name) }
            else { warnings := warns, transferred := true, error := none }
          else { warnings := warns, transferred := false, error := none }

/-- `read_attribute` (`array_interface.cpp` lines 172–189): open the
attribute, require a scalar stored dataspace, require exact type equality
through `H5Tequal` (whose result is negative on comparison failure), then
transfer. -/
def read_attribute (lib : H5Lib) (obj : H5Object) (name : String)
    (v : h5_array_view) : Except String Unit :=
  match obj.attrs.lookup name with
  | none => Except.error ("Cannot open the attribute " ++ name)
  | some attr =>
    let rank := attr.dims.length
    if rank ≠ 0 then Except.error "Reading a scalar attribute and got rank !=0"
    else
      let eq : Int := if lib.tequal_fails then -1 else if attr.ty = v.ty then 1 else 0
      if eq < 0 then Except.error "Type comparison failure in reading attribute"
      else if eq = 0 then Except.error "Type mismatch in reading attribute"
      else if ¬ lib.aread_ok then Except.error ("Cannot read the attribute " ++ name)
      else Except.ok ()

/-! ## Concrete fixtures used to evaluate the entry points -/

/-- A library in which every external primitive succeeds. -/
def libAll : H5Lib :=
  { screate_ok := true, select_ok := true, dcreate_ok := true, dwrite_ok := true,
    dread_ok := true, acreate_ok := true, awrite_ok := true, aread_ok := true,
    tequal_fails := false, type_name := fun _ => "type" }

/-- A library in which simple-dataspace creation fails. -/
def libNoScreate : H5Lib := { libAll with screate_ok := false }

/-- A library in which hyperslab selection fails. -/
def libNoSelect : H5Lib := { libAll with select_ok := false }

/-- A library in which the dataset data-transfer write fails. -/
def libNoDwrite : H5Lib := { libAll with dwrite_ok := false }

/-- A 32-bit integer element type. -/
def i32 : HType := { cls := TClass.integer, sub := 32 }

/-- A 64-bit integer element type (same class as `i32`, different type). -/
def i64 : HType := { cls := TClass.integer, sub := 64 }

/-- A 64-bit float element type (different class from `i32`). -/
def f64 : HType := { cls := TClass.float, sub := 64 }

/-- A rank-0 (scalar) view. -/
def v0 : h5_array_view :=
  { ty := i32, start := 7, slab := { offset := [], stride := [], count := [], block := [] },
    L_tot := [], is_complex := false }

/-- A rank-1 view of three `i32` elements. -/
def v3 : h5_array_view :=
  { ty := i32, start := 7, slab := { offset := [0], stride := [1], count := [3], block := [] },
    L_tot := [3], is_complex := false }

/-- The same view flagged complex. -/
def v3c : h5_array_view := { v3 with is_complex := true }

/-- A view whose memory extent is empty (`L_tot = [0]`) while its slab
count is `[3]`. -/
def vEmptyMem : h5_array_view := { v3 with L_tot := [0] }

/-- A stored rank-1 dataset of three `i32` elements. -/
def ds3 : Dataset :=
  { ty := i32, dims := [3], props := CreationProps.dflt, payload := some 7, attrs := [] }

/-- An empty group. -/
def g0 : group := { name := "g0", datasets := [] }

/-- A group holding `ds3` under the name `vec`. -/
def g3 : group := { name := "g", datasets := [("vec", ds3)] }

/-- Stored metadata matching `v3` exactly. -/
def lt3 : h5_lengths_type := { lengths := [3], ty := i32, has_complex_attribute := false }

/-- Stored metadata with the same class but a different exact type. -/
def lt3b : h5_lengths_type := { lt3 with ty := i64 }

/-- Stored metadata with a different type class. -/
def ltF : h5_lengths_type := { lt3 with ty := f64 }

/-- Stored metadata with mismatching lengths. -/
def lt4 : h5_lengths_type := { lt3 with lengths := [4] }

/-- A stored scalar `i32` attribute. -/
def aI : AttrEntry := { ty := i32, dims := [], val := AttrVal.raw (some 1) }

/-- An object carrying the attribute `a`. -/
def objA : H5Object := { attrs := [("a", aI)] }

/-! ## Lemmas about lists -/

theorem getD_nil (n : Nat) : ([] : List Int).getD n 0 = 0 := by
  simp [List.getD]

theorem length_divideBelow (L : Int) (u : Nat) (s : List Int) :
    (divideBelow L u s).length = s.length := by
  induction s generalizing u with
  | nil => cases u <;> rfl
  | cons x xs ih =>
    cases u with
    | zero => rfl
    | succ u => simp [divideBelow, ih]

theorem getD_divideBelow (L : Int) (u v : Nat) (s : List Int) :
    (divideBelow L u s).getD v 0 = if v ≤ u then s.getD v 0 / L else s.getD v 0 := by
  induction s generalizing u v with
  | nil => cases u <;> simp [divideBelow, List.getD, Int.zero_ediv]
  | cons x xs ih =>
    cases u with
    | zero =>
      cases v with
      | zero => simp [divideBelow]
      | succ v => simp [divideBelow]
    | succ u =>
      cases v with
      | zero => simp [divideBelow]
      | succ v =>
        simpa [divideBelow, Nat.succ_le_succ_iff] using ih u v

theorem getD_set_self (l : List Int) (i : Nat) (a : Int) (h : i < l.length) :
    (l.set i a).getD i 0 = a := by
  induction l generalizing i with
  | nil => simp at h
  | cons x xs ih =>
    cases i with
    | zero => rfl
    | succ i =>
      have : i < xs.length := by simpa using h
      simpa [List.set] using ih i this

theorem getD_set_ne (l : List Int) (i j : Nat) (a : Int) (h : i ≠ j) :
    (l.set i a).getD j 0 = l.getD j 0 := by
  induction l generalizing i j with
  | nil => simp [List.set]
  | cons x xs ih =>
    cases i with
    | zero =>
      cases j with
      | zero => exact absurd rfl h
      | succ j => rfl
    | succ i =>
      cases j with
      | zero => rfl
      | succ j =>
        have h' : i ≠ j := fun hc => h (by rw [hc])
        simpa [List.set] using ih i j h'

theorem getD_drop (l : List Int) (m n : Nat) :
    (l.drop m).getD n 0 = l.getD (m + n) 0 := by
  induction l generalizing m with
  | nil => simp [List.getD]
  | cons x xs ih =>
    cases m with
    | zero => rw [Nat.zero_add]; rfl
    | succ m =>
      have e : m + 1 + n = (m + n) + 1 := by omega
      rw [e]
      simp [List.drop, ih m]

theorem prod_take_succ (l : List Int) (n : Nat) (h : n < l.length) :
    (l.take (n + 1)).prod = (l.take n).prod * l.getD n 0 := by
  rw [List.take_succ, List.prod_append, List.getElem?_eq_getElem h,
    List.getD_eq_getElem l 0 h]
  simp

/-! ## Lemmas about the gcd folds -/

theorem foldGcd_dvd (s : List Int) : ∀ (n : Nat) (L : Int),
    (foldGcd s L n ∣ L) ∧ ∀ v, v < n → foldGcd s L n ∣ s.getD v 0 := by
  intro n
  induction n with
  | zero =>
    intro L
    exact ⟨dvd_rfl, fun v hv => absurd hv (Nat.not_lt_zero v)⟩
  | succ n ih =>
    intro L
    have h := ih (Int.gcd L (s.getD n 0))
    constructor
    · exact h.1.trans Int.gcd_dvd_left
    · intro v hv
      rcases Nat.lt_succ_iff_lt_or_eq.mp hv with hv | hv
      · exact h.2 v hv
      · subst hv
        exact h.1.trans Int.gcd_dvd_right

/-! ## The loop invariant of the stride decomposition -/

/-- Invariant of the outer loop: the `k` remaining iterations only set
`L_tot` at indices `1..k`, preserve lengths, and each final stride times
the product of the block sizes it was divided by recovers the stride the
loop started from. -/
theorem stepLoop_spec : ∀ (k : Nat) (Ltot s Lt2 s2 : List Int),
    k < Ltot.length →
    stepLoop k (Ltot, s) = some (Lt2, s2) →
    s2.length = s.length ∧ Lt2.length = Ltot.length ∧
    (∀ j, j = 0 ∨ k < j → Lt2.getD j 0 = Ltot.getD j 0) ∧
    (∀ d, s2.getD d 0 * ((Lt2.drop (d + 1)).take (k - d)).prod = s.getD d 0) := by
  intro k
  induction k with
  | zero =>
    intro Ltot s Lt2 s2 _ h
    simp only [stepLoop, Option.some.injEq, Prod.mk.injEq] at h
    obtain ⟨h1, h2⟩ := h
    subst h1
    subst h2
    exact ⟨rfl, rfl, fun j _ => rfl, fun d => by simp⟩
  | succ k ih =>
    intro Ltot s Lt2 s2 hk h
    simp only [stepLoop] at h
    by_cases hL : foldGcd s (s.getD k 0) k = 0
    · rw [if_pos hL] at h
      exact absurd h (by simp)
    · rw [if_neg hL] at h
      set L := foldGcd s (s.getD k 0) k with hLdef
      have hk2 : k < (Ltot.set (k + 1) L).length := by
        rw [List.length_set]; omega
      obtain ⟨ih1, ih2, ih3, ih4⟩ := ih (Ltot.set (k + 1) L) (divideBelow L k s) Lt2 s2 hk2 h
      have hLen : Lt2.length = Ltot.length := by rw [ih2, List.length_set]
      have hLK : Lt2.getD (k + 1) 0 = L := by
        rw [ih3 (k + 1) (Or.inr (Nat.lt_succ_self k)), getD_set_self _ _ _ hk]
      have hdvd : ∀ d, d ≤ k → L ∣ s.getD d 0 := by
        intro d hd
        rcases Nat.lt_or_ge d k with h1 | h1
        · exact (foldGcd_dvd s k (s.getD k 0)).2 d h1
        · have hdk : d = k := le_antisymm hd h1
          subst hdk
          exact (foldGcd_dvd s d (s.getD d 0)).1
      refine ⟨by rw [ih1, length_divideBelow], hLen, ?_, ?_⟩
      · intro j hj
        have hj2 : j = 0 ∨ k < j := by omega
        rw [ih3 j hj2, getD_set_ne _ _ _ _ (by omega)]
      · intro d
        rcases Nat.lt_or_ge k d with hd | hd
        · have e1 : k + 1 - d = 0 := by omega
          have e2 : k - d = 0 := by omega
          have h4 := ih4 d
          rw [e2] at h4
          rw [e1]
          simp only [List.take_zero, List.prod_nil, mul_one] at h4 ⊢
          rw [h4, getD_divideBelow, if_neg (by omega)]
        · have e1 : k + 1 - d = (k - d) + 1 := by omega
          have hb : k - d < (Lt2.drop (d + 1)).length := by
            rw [List.length_drop, hLen]; omega
          have e2 : d + 1 + (k - d) = k + 1 := by omega
          rw [e1, prod_take_succ _ _ hb, getD_drop, e2, hLK, ← mul_assoc, ih4 d,
            getD_divideBelow, if_pos hd, Int.ediv_mul_cancel (hdvd d hd)]

/-! ## Success and failure of the decomposition (for claim C3) -/

theorem stepLoop_isSome (k : Nat) : ∀ (Ltot s : List Int), s.getD 0 0 ≠ 0 →
    (stepLoop k (Ltot, s)).isSome = true := by
  induction k with
  | zero => intro Ltot s _; rfl
  | succ k ih =>
    intro Ltot s h
    have hdvd : foldGcd s (s.getD k 0) k ∣ s.getD 0 0 := by
      cases k with
      | zero => exact dvd_rfl
      | succ n => exact (foldGcd_dvd s (n + 1) (s.getD (n + 1) 0)).2 0 (Nat.succ_pos n)
    have hL : foldGcd s (s.getD k 0) k ≠ 0 := by
      intro h0
      rw [h0] at hdvd
      exact h (zero_dvd_iff.mp hdvd)
    simp only [stepLoop]
    rw [if_neg hL]
    apply ih
    rw [getD_divideBelow, if_pos (Nat.zero_le k)]
    intro hq
    have hc := Int.ediv_mul_cancel hdvd
    rw [hq, zero_mul] at hc
    exact h hc.symm

theorem stepLoop_none (k : Nat) : ∀ (Ltot s : List Int), 1 ≤ k → s.getD 0 0 = 0 →
    stepLoop k (Ltot, s) = none := by
  induction k with
  | zero => intro _ _ h _; omega
  | succ k ih =>
    intro Ltot s _ h0
    simp only [stepLoop]
    cases k with
    | zero =>
      have hc : foldGcd s (s.getD 0 0) 0 = 0 := h0
      rw [if_pos hc]
    | succ n =>
      by_cases hL : foldGcd s (s.getD (n + 1) 0) (n + 1) = 0
      · rw [if_pos hL]
      · rw [if_neg hL]
        apply ih _ _ (Nat.succ_pos n)
        rw [getD_divideBelow, if_pos (Nat.zero_le (n + 1)), h0, Int.zero_ediv]

/-! ## Equivalence of the implementation loop and the reference loop -/

theorem divideBelow_eq_specDivide (L : Int) (u : Nat) (s : List Int) :
    divideBelow L u s = specDivide L u s := by
  induction s generalizing u with
  | nil => cases u <;> rfl
  | cons x xs ih =>
    cases u with
    | zero => rfl
    | succ u =>
      show x / L :: divideBelow L u xs = x / L :: specDivide L u xs
      rw [ih u]

theorem int_gcd_cast_left (L : Nat) (x : Int) :
    Int.gcd (L : Int) x = Nat.gcd L x.natAbs := by
  simp [Int.gcd]

theorem int_gcd_cast_right (x : Int) (n : Nat) :
    Int.gcd x (n : Int) = Nat.gcd x.natAbs n := by
  simp [Int.gcd]

theorem listGcd_append (l1 l2 : List Int) :
    listGcd (l1 ++ l2) = Nat.gcd (listGcd l1) (listGcd l2) := by
  induction l1 with
  | nil => simp [listGcd]
  | cons x xs ih =>
    show Int.gcd x (listGcd (xs ++ l2) : Int) = Nat.gcd (Int.gcd x (listGcd xs : Int)) (listGcd l2)
    rw [int_gcd_cast_right, ih, int_gcd_cast_right, Nat.gcd_assoc]

theorem listGcd_getElem_opt (s : List Int) (n : Nat) :
    listGcd (s[n]?.toList) = (s.getD n 0).natAbs := by
  rcases Nat.lt_or_ge n s.length with h | h
  · rw [List.getElem?_eq_getElem h, List.getD_eq_getElem s 0 h]
    show Int.gcd s[n] ((0 : Nat) : Int) = s[n].natAbs
    rw [int_gcd_cast_right, Nat.gcd_zero_right]
  · rw [List.getElem?_eq_none h]
    have : s.getD n 0 = 0 := by
      simp [List.getD, List.getElem?_eq_none h]
    rw [this]
    rfl

theorem foldGcd_acc (s : List Int) : ∀ (n : Nat) (L : Nat),
    foldGcd s (L : Int) n = (Nat.gcd L (listGcd (s.take n)) : Int) := by
  intro n
  induction n with
  | zero =>
    intro L
    show (L : Int) = (Nat.gcd L (listGcd []) : Int)
    rw [show listGcd [] = 0 from rfl, Nat.gcd_zero_right]
  | succ n ih =>
    intro L
    show foldGcd s ((Int.gcd (L : Int) (s.getD n 0) : Nat) : Int) n = _
    rw [ih, List.take_succ, listGcd_append, listGcd_getElem_opt, int_gcd_cast_left]
    have : Nat.gcd (Nat.gcd L (s.getD n 0).natAbs) (listGcd (s.take n))
        = Nat.gcd L (Nat.gcd (listGcd (s.take n)) (s.getD n 0).natAbs) := by
      rw [Nat.gcd_assoc, Nat.gcd_comm (s.getD n 0).natAbs (listGcd (s.take n))]
    rw [this]

theorem foldGcd_eq_prefixGcd (s : List Int) (u : Nat) :
    foldGcd s (s.getD u 0) u = prefixGcd s u := by
  cases u with
  | zero => rfl
  | succ n =>
    show foldGcd s ((Int.gcd (s.getD (n + 1) 0) (s.getD n 0) : Nat) : Int) n
      = (listGcd (s.take (n + 2)) : Int)
    rw [foldGcd_acc, List.take_succ, listGcd_append, List.take_succ, listGcd_append,
      listGcd_getElem_opt, listGcd_getElem_opt]
    have : Nat.gcd (Int.gcd (s.getD (n + 1) 0) (s.getD n 0)) (listGcd (s.take n))
        = Nat.gcd (Nat.gcd (listGcd (s.take n)) (s.getD n 0).natAbs) (s.getD (n + 1) 0).natAbs := by
      show Nat.gcd (Nat.gcd (s.getD (n + 1) 0).natAbs (s.getD n 0).natAbs) (listGcd (s.take n)) = _
      rw [Nat.gcd_assoc, Nat.gcd_comm ((s.getD n 0).natAbs) (listGcd (s.take n)),
        ← Nat.gcd_assoc, Nat.gcd_comm ((s.getD (n + 1) 0).natAbs), Nat.gcd_assoc,
        Nat.gcd_comm ((s.getD (n + 1) 0).natAbs) ((s.getD n 0).natAbs), ← Nat.gcd_assoc]
    rw [this]

theorem specStep_eq_stepLoop : ∀ (k : Nat) (st : List Int × List Int),
    specStep k st = stepLoop k st := by
  intro k
  induction k with
  | zero => intro st; rfl
  | succ k ih =>
    intro st
    obtain ⟨Ltot, s⟩ := st
    simp only [specStep, stepLoop, ← foldGcd_eq_prefixGcd, ← divideBelow_eq_specDivide, ih]

/-! ## Claims C1–C3 -/

/-- C1: `get_L_tot_and_strides_h5` equals the reference definition read off
the spec: empty outputs at rank 0; `r` zeros and `r` ones when
`total_size = 0` and `r > 0`; otherwise `L_tot[0] = total_size` and, for
`u` from `rank - 2` down to `0`, `L` is the gcd of
`strides_h5[u], …, strides_h5[0]`, every `strides_h5[v]` with `v ≤ u` is
divided by `L`, and `L_tot[u+1] = L`. -/
theorem C1_get_L_tot_matches_reference (stri : List Int) (total_size : Int) :
    get_L_tot_and_strides_h5 stri total_size = get_L_tot_and_strides_h5_spec stri total_size := by
  simp only [get_L_tot_and_strides_h5, get_L_tot_and_strides_h5_spec, specStep_eq_stepLoop]

/-- C2: for `total_size > 0`, the pair `(L_tot, strides_h5)` returned by
`get_L_tot_and_strides_h5` addresses exactly the linear offsets of the
original stride vector: the stride that `strides_h5[d]` induces through the
row-major `L_tot` decomposition equals `stri[d]` in every dimension, hence
`offset + Σ index[d]·strides_h5[d]` (expanded through `L_tot`) visits the
same offsets — pointwise and as a set over any collection of indices — as
`stri`-based addressing. -/
theorem C2_stride_decomposition_round_trip (stri : List Int) (total_size : Int)
    (Ltot strides_h5 : List Int) (hpos : 0 < total_size)
    (h : get_L_tot_and_strides_h5 stri total_size = some (Ltot, strides_h5)) :
    (∀ d, expandStride Ltot strides_h5 d = origStride stri d) ∧
    (∀ (offset : Int) (idx : List Int),
      addr offset (expandStride Ltot strides_h5) idx = addr offset (origStride stri) idx) ∧
    (∀ (offset : Int) (I : Set (List Int)),
      Set.image (addr offset (expandStride Ltot strides_h5)) I
        = Set.image (addr offset (origStride stri)) I) := by
  have main : ∀ d, expandStride Ltot strides_h5 d = origStride stri d := by
    by_cases h0 : stri.length = 0
    · have hnil : stri = [] := List.length_eq_zero.mp h0
      subst hnil
      simp [get_L_tot_and_strides_h5] at h
      obtain ⟨h1, h2⟩ := h
      subst h1
      subst h2
      intro d
      simp [expandStride, origStride, getD_nil]
    · have hts : total_size ≠ 0 := by omega
      simp only [get_L_tot_and_strides_h5] at h
      rw [if_neg h0, if_neg hts] at h
      have hk : stri.length - 1 < ((List.replicate stri.length (0 : Int)).set 0 total_size).length := by
        rw [List.length_set, List.length_replicate]; omega
      obtain ⟨_, l2, _, l4⟩ := stepLoop_spec _ _ _ _ _ hk h
      have hLt : Ltot.length = stri.length := by
        rw [l2, List.length_set, List.length_replicate]
      intro d
      have h4 := l4 d
      have htake : (Ltot.drop (d + 1)).take (stri.length - 1 - d) = Ltot.drop (d + 1) := by
        apply List.take_of_length_le
        rw [List.length_drop, hLt]
        omega
      rw [htake] at h4
      simpa [expandStride, origStride] using h4
  have hfun : expandStride Ltot strides_h5 = origStride stri := funext main
  exact ⟨main, fun offset idx => by rw [hfun], fun offset I => by rw [hfun]⟩

/-- C2 witness: the round trip at `stri = [6, 2]`, `total_size = 12`, where
the decomposition returns `L_tot = [12, 6]`, `strides_h5 = [1, 2]`. -/
theorem C2_witness :
    expandStride [12, 6] [1, 2] 0 = origStride [6, 2] 0 ∧
    addr 5 (expandStride [12, 6] [1, 2]) [3, 4] = addr 5 (origStride [6, 2]) [3, 4] := by
  have h := C2_stride_decomposition_round_trip [6, 2] 12 [12, 6] [1, 2]
    (by decide) (by decide)
  exact ⟨h.1 0, h.2.1 5 [3, 4]⟩

/-- C3 counterexample: the routine is not total — with stride vector
`[0, 3]` (rank 2) and `total_size = 6`, the loop iteration at `u = 0`
computes `L = strides_h5[0] = 0` and then divides by zero. -/
theorem C3_counterexample : get_L_tot_and_strides_h5 [0, 3] 6 = none := by decide

/-- C3 amended: the routine produces a result exactly when the GCD loop is
never entered with an all-zero prefix: rank `≤ 1`, or `total_size = 0`, or
the innermost stride `stri[0]` nonzero.  (With rank `≥ 2`, a nonzero
`total_size` and `stri[0] = 0`, the division loop divides by zero.) -/
theorem C3_amended_totality (stri : List Int) (total_size : Int) :
    (get_L_tot_and_strides_h5 stri total_size).isSome = true ↔
    (stri.length ≤ 1 ∨ total_size = 0 ∨ stri.getD 0 0 ≠ 0) := by
  simp only [get_L_tot_and_strides_h5]
  by_cases h0 : stri.length = 0
  · rw [if_pos h0]
    simp only [Option.isSome_some, true_iff]
    exact Or.inl (by omega)
  · rw [if_neg h0]
    by_cases hts : total_size = 0
    · rw [if_pos hts]
      simp only [Option.isSome_some, true_iff]
      exact Or.inr (Or.inl hts)
    · rw [if_neg hts]
      rcases Nat.lt_or_ge 1 stri.length with hlen | hlen
      · constructor
        · intro hs
          refine Or.inr (Or.inr ?_)
          intro hz
          rw [stepLoop_none (stri.length - 1) _ _ (by omega) hz] at hs
          simp at hs
        · intro hd
          rcases hd with h1 | h2 | h3
          · omega
          · exact absurd h2 hts
          · exact stepLoop_isSome _ _ _ h3
      · have h1 : stri.length = 1 := by omega
        rw [h1]
        simp only [Nat.sub_self, stepLoop, Option.isSome_some, true_iff]
        exact Or.inl (by omega)

/-! ## Lemmas about group bookkeeping -/

theorem lookup_filter_ne (l : List (String × Dataset)) (n : String) :
    (l.filter (fun p => p.1 != n)).lookup n = none := by
  induction l with
  | nil => rfl
  | cons p l ih =>
    by_cases hp : p.1 = n
    · simp [List.filter_cons, hp, ih]
    · have hb : (n == p.1) = false := by simp [Ne.symm hp]
      simp only [List.filter_cons]
      rw [if_pos (by simp [hp])]
      simp only [List.lookup, hb]
      exact ih

theorem lookup_append_of_none (l1 l2 : List (String × Dataset)) (n : String)
    (h : l1.lookup n = none) : (l1 ++ l2).lookup n = l2.lookup n := by
  induction l1 with
  | nil => rfl
  | cons p l ih =>
    by_cases hp : n = p.1
    · have hb : (n == p.1) = true := by simp [hp]
      simp only [List.lookup, hb] at h
      exact absurd h (by simp)
    · have hb : (n == p.1) = false := by simp [hp]
      simp only [List.lookup, hb] at h
      simp only [List.cons_append, List.lookup, hb]
      exact ih h

theorem find_dataset_unlink_add (g : group) (n : String) (d : Dataset) :
    ((g.unlink n).add_dataset n d).find_dataset n = some d := by
  show ((g.datasets.filter (fun p => p.1 != n)) ++ [(n, d)]).lookup n = some d
  rw [lookup_append_of_none _ _ _ (lookup_filter_ne _ _)]
  simp [List.lookup]

theorem lookup_map_key (l : List (String × Dataset)) (n : String) (f : Dataset → Dataset) :
    (l.map (fun p => if p.1 == n then (p.1, f p.2) else p)).lookup n = (l.lookup n).map f := by
  induction l with
  | nil => rfl
  | cons p l ih =>
    by_cases hp : p.1 = n
    · subst hp
      have hb : (p.1 == p.1) = true := by simp
      simp only [List.map_cons]
      rw [if_pos (by simp)]
      simp only [List.lookup, hb]
      rfl
    · have hb : (n == p.1) = false := by simp [Ne.symm hp]
      simp only [List.map_cons]
      rw [if_neg (by simp [hp])]
      simp only [List.lookup, hb]
      exact ih

theorem find_dataset_map_self (g : group) (n : String) (f : Dataset → Dataset) :
    (g.map_dataset n f).find_dataset n = (g.find_dataset n).map f := by
  show (g.datasets.map _).lookup n = (g.datasets.lookup n).map f
  exact lookup_map_key g.datasets n f

theorem make_mem_dspace_ok (lib : H5Lib) (v : h5_array_view)
    (h1 : lib.screate_ok = true) (h2 : lib.select_ok = true) :
    ∃ d, make_mem_dspace lib v = Except.ok d := by
  by_cases h0 : v.rank = 0
  · exact ⟨dataspace.scalar, by simp only [make_mem_dspace]; rw [if_pos h0]⟩
  · exact ⟨dataspace.simple v.L_tot (some
      { offset := v.slab.offset, stride := v.slab.stride, count := v.slab.count,
        block := if v.slab.block = [] then none else some v.slab.block }),
      by simp only [make_mem_dspace]; rw [if_neg h0, if_neg (by simp [h1]), if_neg (by simp [h2])]⟩

/-! ## Claims C4–C10 -/

/-- C4: `make_mem_dspace` returns a scalar dataspace (one addressable
point, no selection) on rank 0; on positive rank it returns a simple
dataspace with extents `L_tot` carrying a hyperslab selection built from
the view's offset/stride/count, whose block argument is null exactly when
the view's block vector is empty; and it fails with an error when
dataspace creation or hyperslab selection fails. -/
theorem C4_make_mem_dspace_contract (lib : H5Lib) (v : h5_array_view) :
    (v.rank = 0 →
      make_mem_dspace lib v = Except.ok dataspace.scalar ∧
      simple_extent_npoints dataspace.scalar = 1) ∧
    (v.rank ≠ 0 → lib.screate_ok = true → lib.select_ok = true →
      make_mem_dspace lib v = Except.ok (dataspace.simple v.L_tot (some
        { offset := v.slab.offset, stride := v.slab.stride, count := v.slab.count,
          block := if v.slab.block = [] then none else some v.slab.block }))) ∧
    ((if v.slab.block = [] then (none : Option (List Nat)) else some v.slab.block) = none
      ↔ v.slab.block = []) ∧
    (v.rank ≠ 0 → lib.screate_ok = false →
      make_mem_dspace lib v = Except.error "Cannot create the dataset") ∧
    (v.rank ≠ 0 → lib.screate_ok = true → lib.select_ok = false →
      make_mem_dspace lib v = Except.error "Cannot set hyperslab") := by
  refine ⟨?_, ?_, ?_, ?_, ?_⟩
  · intro h0
    constructor
    · simp only [make_mem_dspace]; rw [if_pos h0]
    · rfl
  · intro h0 h1 h2
    simp only [make_mem_dspace]
    rw [if_neg h0, if_neg (by simp [h1]), if_neg (by simp [h2])]
  · constructor
    · intro h
      by_cases hb : v.slab.block = []
      · exact hb
      · rw [if_neg hb] at h
        exact absurd h (by simp)
    · intro h
      rw [if_pos h]
  · intro h0 h1
    simp only [make_mem_dspace]
    rw [if_neg h0, if_pos (by simp [h1])]
  · intro h0 h1 h2
    simp only [make_mem_dspace]
    rw [if_neg h0, if_neg (by simp [h1]), if_pos (by simp [h2])]

/-- C4 witness: the contract evaluated on a scalar view, a rank-1 view,
and the two failing libraries. -/
theorem C4_witness :
    make_mem_dspace libAll v0 = Except.ok dataspace.scalar ∧
    make_mem_dspace libAll v3 = Except.ok (dataspace.simple [3] (some
      { offset := [0], stride := [1], count := [3], block := none })) ∧
    make_mem_dspace libNoScreate v3 = Except.error "Cannot create the dataset" ∧
    make_mem_dspace libNoSelect v3 = Except.error "Cannot set hyperslab" := by
  refine ⟨((C4_make_mem_dspace_contract libAll v0).1 (by decide)).1, ?_, ?_, ?_⟩
  · have h := (C4_make_mem_dspace_contract libAll v3).2.1 (by decide) (by decide) (by decide)
    rw [h]
    rfl
  · exact (C4_make_mem_dspace_contract libNoScreate v3).2.2.2.1 (by decide) (by decide)
  · exact (C4_make_mem_dspace_contract libNoSelect v3).2.2.2.2 (by decide) (by decide) (by decide)

/-- C8: `write_attribute` on a name that already exists fails immediately
with the no-overwrite error, and the object — in particular the existing
attribute's value — is unchanged. -/
theorem C8_attribute_no_overwrite (lib : H5Lib) (obj : H5Object) (name : String)
    (v : h5_array_view) (h : (obj.attrs.lookup name).isSome = true) :
    write_attribute lib obj name v =
      { obj := obj,
        error := some ("The attribute " ++ name ++ " is already present. Can not overwrite") } := by
  simp only [write_attribute]
  rw [if_pos h]

/-- C8 witness: overwriting the existing attribute `a` of `objA` fails and
leaves the object unchanged. -/
theorem C8_witness :
    write_attribute libAll objA "a" v0 =
      { obj := objA,
        error := some "The attribute a is already present. Can not overwrite" } := by
  have h := C8_attribute_no_overwrite libAll objA "a" v0 (by decide)
  rw [h]
  decide

/-- C10: `read_attribute` never inspects the caller view's rank or
hyperslab: for an arbitrary view `v`, it succeeds whenever the named
attribute exists, the stored attribute is scalar, the stored type equals
`v`'s type, and the comparison and transfer primitives succeed. -/
theorem C10_read_attribute_ignores_view (lib : H5Lib) (obj : H5Object) (name : String)
    (v : h5_array_view) (a : AttrEntry)
    (hfind : obj.attrs.lookup name = some a) (hscalar : a.dims = [])
    (hty : a.ty = v.ty) (hfail : lib.tequal_fails = false) (hread : lib.aread_ok = true) :
    read_attribute lib obj name v = Except.ok () := by
  simp [read_attribute, hfind, hscalar, hty, hfail, hread]

/-- C10 witness: reading the scalar attribute `a` of `objA` succeeds into a
rank-1 view with a nonempty hyperslab. -/
theorem C10_witness : read_attribute libAll objA "a" v3 = Except.ok () := by
  exact C10_read_attribute_ignores_view libAll objA "a" v3 aI
    (by decide) (by decide) (by decide) (by decide) (by decide)

/-- C5: on dataset read, a type-class mismatch is a hard failure whose
message names both type names, while an exact-type mismatch within the same
class only emits a warning — the read does not fail and the transfer
proceeds. -/
theorem C5_read_type_check_policy (lib : H5Lib) (g : group) (name : String)
    (v : h5_array_view) (lt : h5_lengths_type) (ds : Dataset)
    (hfind : g.find_dataset name = some ds) :
    (v.ty.cls ≠ lt.ty.cls →
      read lib g name v lt =
        { warnings := [], transferred := false,
          error := some ("Incompatible types in h5_read. Expecting a " ++ lib.type_name v.ty
            ++ " while the array stored in the hdf5 file has type " ++ lib.type_name lt.ty) }) ∧
    (v.ty.cls = lt.ty.cls → v.ty ≠ lt.ty → lt.lengths = v.slab.count →
      lib.screate_ok = true → lib.select_ok = true → lib.dread_ok = true →
      0 < ds.dims.prod →
      read lib g name v lt =
        { warnings := ["WARNING: Mismatching types in h5_read. Expecting a " ++ lib.type_name v.ty
            ++ " while the array stored in the hdf5 file has type " ++ lib.type_name lt.ty ++ "\n"],
          transferred := true, error := none }) := by
  constructor
  · intro hc
    simp only [read, hfind]
    rw [if_pos hc]
  · intro hc hty hlen h1 h2 h3 hnp
    obtain ⟨mem, hmem⟩ := make_mem_dspace_ok lib v h1 h2
    have hrank : ¬ lt.rank ≠ v.rank := by
      simp [h5_lengths_type.rank, h5_array_view.rank, hyperslab.rank, hlen]
    have hteq : hdf5_type_equal v.ty lt.ty = false := by
      simp [hdf5_type_equal, hty]
    simp only [read, hfind, hmem, hteq]
    rw [if_neg (by simp [hc]), if_neg hrank, if_neg (by simp [hlen])]
    simp only [simple_extent_npoints]
    rw [if_pos hnp, if_neg (by simp [h3])]
    simp

/-- C5 witness: reading `i32` against stored `f64` fails naming both type
names; reading `i32` against stored `i64` (same class) warns and
transfers. -/
theorem C5_witness :
    read libAll g3 "vec" v3 ltF =
      { warnings := [], transferred := false,
        error := some ("Incompatible types in h5_read. Expecting a type"
          ++ " while the array stored in the hdf5 file has type type") } ∧
    read libAll g3 "vec" v3 lt3b =
      { warnings := ["WARNING: Mismatching types in h5_read. Expecting a type"
          ++ " while the array stored in the hdf5 file has type type" ++ "\n"],
        transferred := true, error := none } := by
  constructor
  · have h := (C5_read_type_check_policy libAll g3 "vec" v3 ltF ds3 (by decide)).1 (by decide)
    rw [h]
    decide
  · have h := (C5_read_type_check_policy libAll g3 "vec" v3 lt3b ds3 (by decide)).2
      (by decide) (by decide) (by decide) (by decide) (by decide) (by decide) (by decide)
    rw [h]
    decide

/-- C6: on dataset read, a rank mismatch or a mismatch between the stored
extents and the view's count vector causes a hard failure, and no transfer
has happened. -/
theorem C6_read_shape_mismatch_fails (lib : H5Lib) (g : group) (name : String)
    (v : h5_array_view) (lt : h5_lengths_type) (ds : Dataset)
    (hfind : g.find_dataset name = some ds)
    (hmm : lt.rank ≠ v.rank ∨ lt.lengths ≠ v.slab.count) :
    ((read lib g name v lt).error).isSome = true ∧
    (read lib g name v lt).transferred = false := by
  simp only [read, hfind]
  by_cases hc : v.ty.cls ≠ lt.ty.cls
  · rw [if_pos hc]
    exact ⟨rfl, rfl⟩
  · rw [if_neg hc]
    by_cases hr : lt.rank ≠ v.rank
    · rw [if_pos hr]
      exact ⟨rfl, rfl⟩
    · rw [if_neg hr]
      have hlen : lt.lengths ≠ v.slab.count := by
        rcases hmm with h | h
        · exact absurd h hr
        · exact h
      rw [if_pos hlen]
      exact ⟨rfl, rfl⟩

/-- C6 witness: reading into a view whose counts are `[3]` from a stored
`[4]`-extent record fails without transferring. -/
theorem C6_witness :
    ((read libAll g3 "vec" v3 lt4).error).isSome = true ∧
    (read libAll g3 "vec" v3 lt4).transferred = false := by
  exact C6_read_shape_mismatch_fails libAll g3 "vec" v3 lt4 ds3 (by decide)
    (Or.inr (by decide))

/-- C7: zero-size selections are a valid no-op.  `write` runs its transfer
primitive exactly when the memory-side dataspace has more than zero points
(and otherwise still creates the dataset and succeeds), while `read` runs
its transfer primitive exactly when the file-side dataspace has more than
zero points. -/
theorem C7_zero_size_skip :
    (∀ (lib : H5Lib) (g : group) (name : String) (v : h5_array_view) (compress : Bool)
       (mem : dataspace),
      lib.dcreate_ok = true → lib.dwrite_ok = true →
      make_mem_dspace lib v = Except.ok mem →
      (write lib g name v compress).transferred = decide (0 < simple_extent_npoints mem) ∧
      (write lib g name v compress).error = none ∧
      ((write lib g name v compress).g.find_dataset name).isSome = true) ∧
    (∀ (lib : H5Lib) (g : group) (name : String) (v : h5_array_view)
       (lt : h5_lengths_type) (ds : Dataset),
      g.find_dataset name = some ds → v.ty = lt.ty → lt.lengths = v.slab.count →
      lib.screate_ok = true → lib.select_ok = true → lib.dread_ok = true →
      (read lib g name v lt).transferred = decide (0 < ds.dims.prod) ∧
      (read lib g name v lt).error = none) := by
  constructor
  · intro lib g name v compress mem h1 h2 hmem
    simp only [write, hmem]
    rw [if_neg (by simp [h1])]
    by_cases hnp : 0 < simple_extent_npoints mem
    · rw [if_pos hnp, if_neg (by simp [h2])]
      by_cases hic : v.is_complex
      · rw [if_pos hic]
        refine ⟨(decide_eq_true hnp).symm, rfl, ?_⟩
        simp [find_dataset_map_self, find_dataset_unlink_add]
      · rw [if_neg hic]
        refine ⟨(decide_eq_true hnp).symm, rfl, ?_⟩
        simp [find_dataset_map_self, find_dataset_unlink_add]
    · rw [if_neg hnp]
      by_cases hic : v.is_complex
      · rw [if_pos hic]
        refine ⟨(decide_eq_false hnp).symm, rfl, ?_⟩
        simp [find_dataset_map_self, find_dataset_unlink_add]
      · rw [if_neg hic]
        refine ⟨(decide_eq_false hnp).symm, rfl, ?_⟩
        simp [find_dataset_unlink_add]
  · intro lib g name v lt ds hfind hty hlen h1 h2 h3
    obtain ⟨mem, hmem⟩ := make_mem_dspace_ok lib v h1 h2
    have hrank : ¬ lt.rank ≠ v.rank := by
      simp [h5_lengths_type.rank, h5_array_view.rank, hyperslab.rank, hlen]
    have hteq : hdf5_type_equal v.ty lt.ty = true := by
      simp [hdf5_type_equal, hty]
    simp only [read, hfind, hmem, hteq]
    rw [if_neg (by simp [hty]), if_neg hrank, if_neg (by simp [hlen])]
    simp only [simple_extent_npoints]
    by_cases hnp : 0 < ds.dims.prod
    · rw [if_pos hnp, if_neg (by simp [h3])]
      exact ⟨(decide_eq_true hnp).symm, rfl⟩
    · rw [if_neg hnp]
      exact ⟨(decide_eq_false hnp).symm, rfl⟩

/-- C7 witness: the asymmetry on one concrete scenario — `vEmptyMem` has an
empty memory extent (`L_tot = [0]`) but slab counts `[3]`; writing it
skips the transfer yet succeeds and creates the dataset, while reading it
from a stored 3-element dataset does transfer. -/
theorem C7_witness :
    (write libAll g0 "d" vEmptyMem false).transferred = false ∧
    (write libAll g0 "d" vEmptyMem false).error = none ∧
    ((write libAll g0 "d" vEmptyMem false).g.find_dataset "d").isSome = true ∧
    (read libAll g3 "vec" vEmptyMem lt3).transferred = true ∧
    (read libAll g3 "vec" vEmptyMem lt3).error = none := by
  have hw := C7_zero_size_skip.1 libAll g0 "d" vEmptyMem false
    (dataspace.simple [0] (some { offset := [0], stride := [1], count := [3], block := none }))
    (by decide) (by decide) rfl
  have hr := C7_zero_size_skip.2 libAll g3 "vec" vEmptyMem lt3 ds3
    (by decide) (by decide) (by decide) (by decide) (by decide) (by decide)
  refine ⟨?_, hw.2.1, hw.2.2, ?_, hr.2⟩
  · rw [hw.1]; decide
  · rw [hr.1]; decide

/-- C9: dataset write records the marker attribute `__complex__` with
string value `"1"` on the created dataset exactly when the view's
`is_complex` flag is set; the marker is written after the data transfer,
so when the transfer fails no marker is present even for a complex view. -/
theorem C9_complex_marker :
    (∀ (lib : H5Lib) (g : group) (name : String) (v : h5_array_view) (compress : Bool),
      (write lib g name v compress).error = none →
      ∃ d, (write lib g name v compress).g.find_dataset name = some d ∧
        d.attrs.lookup "__complex__" =
          (if v.is_complex then
            some { ty := strHType, dims := [], val := AttrVal.str "1" } else none)) ∧
    (∀ (lib : H5Lib) (g : group) (name : String) (v : h5_array_view) (compress : Bool)
       (mem : dataspace),
      lib.dcreate_ok = true → lib.dwrite_ok = false →
      make_mem_dspace lib v = Except.ok mem → 0 < simple_extent_npoints mem →
      ((write lib g name v compress).error).isSome = true ∧
      ∃ d, (write lib g name v compress).g.find_dataset name = some d ∧
        d.attrs.lookup "__complex__" = none) := by
  constructor
  · intro lib g name v compress herr
    by_cases h1 : lib.dcreate_ok
    · cases hmem : make_mem_dspace lib v with
      | error e =>
        simp only [write, hmem] at herr
        rw [if_neg (by simp [h1])] at herr
        exact absurd herr (by simp)
      | ok mem =>
        simp only [write, hmem] at herr ⊢
        rw [if_neg (by simp [h1])] at herr ⊢
        by_cases hnp : 0 < simple_extent_npoints mem
        · rw [if_pos hnp] at herr ⊢
          by_cases h2 : lib.dwrite_ok
          · rw [if_neg (by simp [h2])] at herr ⊢
            by_cases hic : v.is_complex
            · rw [if_pos hic] at herr ⊢
              simp only [find_dataset_map_self, find_dataset_unlink_add, Option.map_some']
              refine ⟨_, rfl, ?_⟩
              rw [if_pos hic]
              rfl
            · rw [if_neg hic] at herr ⊢
              simp only [find_dataset_map_self, find_dataset_unlink_add, Option.map_some']
              refine ⟨_, rfl, ?_⟩
              rw [if_neg hic]
              rfl
          · rw [if_pos (by simp [h2])] at herr
            exact absurd herr (by simp)
        · rw [if_neg hnp] at herr ⊢
          by_cases hic : v.is_complex
          · rw [if_pos hic] at herr ⊢
            simp only [find_dataset_map_self, find_dataset_unlink_add, Option.map_some']
            refine ⟨_, rfl, ?_⟩
            rw [if_pos hic]
            rfl
          · rw [if_neg hic] at herr ⊢
            simp only [find_dataset_unlink_add]
            refine ⟨_, rfl, ?_⟩
            rw [if_neg hic]
            rfl
    · simp only [write] at herr
      rw [if_pos (by simp [h1])] at herr
      exact absurd herr (by simp)
  · intro lib g name v compress mem h1 h2 hmem hnp
    simp only [write, hmem]
    rw [if_neg (by simp [h1]), if_pos hnp, if_pos (by simp [h2])]
    refine ⟨rfl, ?_⟩
    simp only [find_dataset_unlink_add]
    exact ⟨_, rfl, rfl⟩

/-- C9 witness: writing the complex-flagged view yields the marker with
value `"1"`; writing the plain view yields no marker; a complex view whose
transfer fails yields a dataset without the marker. -/
theorem C9_witness :
    (∃ d, (write libAll g0 "d" v3c false).g.find_dataset "d" = some d ∧
      d.attrs.lookup "__complex__" =
        some { ty := strHType, dims := [], val := AttrVal.str "1" }) ∧
    (∃ d, (write libAll g0 "d" v3 false).g.find_dataset "d" = some d ∧
      d.attrs.lookup "__complex__" = none) ∧
    (((write libNoDwrite g0 "d" v3c false).error).isSome = true ∧
      ∃ d, (write libNoDwrite g0 "d" v3c false).g.find_dataset "d" = some d ∧
        d.attrs.lookup "__complex__" = none) := by
  refine ⟨?_, ?_, ?_⟩
  · have h := C9_complex_marker.1 libAll g0 "d" v3c false (by decide)
    obtain ⟨d, hd, hl⟩ := h
    exact ⟨d, hd, by rw [hl]; decide⟩
  · have h := C9_complex_marker.1 libAll g0 "d" v3 false (by decide)
    obtain ⟨d, hd, hl⟩ := h
    exact ⟨d, hd, by rw [hl]; decide⟩
  · exact C9_complex_marker.2 libNoDwrite g0 "d" v3c false
      (dataspace.simple [3] (some { offset := [0], stride := [1], count := [3], block := none }))
      (by decide) (by decide) rfl (by decide)

end h5
